import Mathlib

/-!
Verification of the eidolon VPN control plane (Go) against its
natural-language specification.  The definitions below are a shallow
embedding of the Go source: pure Go functions become Lean functions,
methods with store / process effects become functions over explicit
state (repository results are passed in as `Except`-valued views,
emitted daemon commands are returned as lists).  Go `int64` is
modelled as `Int`, with the overflow-sensitive `strconv.ParseInt`
clamping made explicit.  Go strings are processed as `List Char`
(the repository only ever feeds ASCII text to these functions).
-/

namespace Eidolon

/-! ### Go string primitives (strings.Split / TrimSpace / Fields / Replace) -/

/-- Character test of Go `unicode.IsSpace` (the full set of Unicode
white space code points recognised by the Go standard library). -/
def goIsSpace (c : Char) : Bool :=
  let n := c.toNat
  n = 9 || n = 10 || n = 11 || n = 12 || n = 13 || n = 32 ||
  n = 0x85 || n = 0xA0 || n = 0x1680 ||
  (0x2000 ≤ n && n ≤ 0x200A) ||
  n = 0x2028 || n = 0x2029 || n = 0x202F || n = 0x205F || n = 0x3000

/-- Go `strings.Split(s, sep)` for a one-character separator, on the
character list of the string: splits around every occurrence of the
separator; the empty string yields one empty piece, like in Go. -/
def splitOnChar (sep : Char) : List Char → List (List Char)
  | [] => [[]]
  | c :: cs =>
    if c = sep then [] :: splitOnChar sep cs
    else
      match splitOnChar sep cs with
      | [] => [[c]]
      | t :: ts => (c :: t) :: ts

/-- Go `strings.TrimSpace`: drop white space from both ends. -/
def trimChars (cs : List Char) : List Char :=
  ((cs.dropWhile goIsSpace).reverse.dropWhile goIsSpace).reverse

/-- Accumulator for `fieldsOf`; `acc` holds the characters of the
current token in reverse order, exactly one token is emitted per
maximal run of non-space characters, as in Go `strings.Fields`. -/
def fieldsAux : List Char → List Char → List (List Char)
  | [], acc => if acc = [] then [] else [acc.reverse]
  | c :: cs, acc =>
    if goIsSpace c then
      if acc = [] then fieldsAux cs [] else acc.reverse :: fieldsAux cs []
    else fieldsAux cs (c :: acc)

/-- Go `strings.Fields`: the maximal runs of non-white-space characters. -/
def fieldsOf (cs : List Char) : List (List Char) :=
  fieldsAux cs []

/-- Go `strings.Replace(s, string(x), "", -1)`: remove every occurrence
of the character `x`. -/
def removeAll (x : Char) (cs : List Char) : List Char :=
  cs.filter (fun c => c ≠ x)

/-- Numeric value of a list of decimal digit characters. -/
def digitsToNat (cs : List Char) : Nat :=
  cs.foldl (fun n c => n * 10 + (c.toNat - 48)) 0

/-- Go `strconv.ParseInt(s, 10, 64)`.  Returns the parsed value and a
flag that is `true` exactly when Go reports no error.  On a syntax
error Go returns `0`; on a range error Go returns the saturated
64-bit value (`2^63 - 1` for positive overflow, `-2^63` for negative
overflow) together with `ErrRange`. -/
def goParseInt64 (s : String) : Int × Bool :=
  match s.toList with
  | [] => (0, false)
  | cs =>
    let signed : Bool × List Char :=
      match cs with
      | '+' :: t => (false, t)
      | '-' :: t => (true, t)
      | t => (false, t)
    let neg := signed.1
    let ds := signed.2
    if ds = [] then (0, false)
    else if ds.all Char.isDigit = false then (0, false)
    else
      let n : Nat := digitsToNat ds
      if neg then
        if 2 ^ 63 < n then (-(2 ^ 63 : Int), false) else (-(n : Int), true)
      else
        if 2 ^ 63 ≤ n then ((2 ^ 63 : Int) - 1, false) else ((n : Int), true)

/-! ### Go net.ParseCIDR (IPv4) and canonical network form

The repository validates route networks with `net.ParseCIDR` and
canonicalises them with `(*net.IPNet).String()`.  The model below
covers the IPv4 dotted-decimal form handled by Go `parseIPv4`
(four decimal fields, each at most 255, multi-digit fields must not
start with a zero); IPv6 addresses are outside the model, so every
theorem quantified over valid CIDRs ranges over valid IPv4 CIDRs. -/

/-- IPv4 address as four octets, the byte array of Go `net.IP`. -/
structure IPv4 where
  o0 : Nat
  o1 : Nat
  o2 : Nat
  o3 : Nat
deriving DecidableEq, Repr

/-- Parse of one dotted-decimal field, as in Go `parseIPv4`: nonempty,
all digits, value at most 255, no leading zero on a multi-digit field. -/
def parseIPv4Field : List Char → Option Nat
  | [] => none
  | c :: cs =>
    if (c :: cs).all Char.isDigit = false then none
    else if c = '0' ∧ cs ≠ [] then none
    else
      let n := digitsToNat (c :: cs)
      if n ≤ 255 then some n else none

/-- Go `parseIPv4`: exactly four dot-separated fields. -/
def parseIPv4 (cs : List Char) : Option IPv4 :=
  match splitOnChar '.' cs with
  | [p0, p1, p2, p3] =>
    match parseIPv4Field p0, parseIPv4Field p1, parseIPv4Field p2, parseIPv4Field p3 with
    | some a, some b, some c, some d => some ⟨a, b, c, d⟩
    | _, _, _, _ => none
  | _ => none

/-- Go `net.ParseCIDR` restricted to IPv4: the text before the first
slash must parse as an IPv4 address, the text after it must be a
nonempty run of decimal digits with value at most 32 (Go parses the
mask with `dtoi`, which accepts leading zeros). -/
def parseCIDR (s : String) : Option (IPv4 × Nat) :=
  let cs := s.toList
  match cs.dropWhile (fun c => c ≠ '/') with
  | [] => none
  | _ :: maskCs =>
    match parseIPv4 (cs.takeWhile (fun c => c ≠ '/')) with
    | none => none
    | some ip =>
      if maskCs ≠ [] ∧ maskCs.all Char.isDigit = true ∧ digitsToNat maskCs ≤ 32 then
        some (ip, digitsToNat maskCs)
      else none

/-- Octet `j` (0-based) of Go `net.CIDRMask n 32`. -/
def maskOctet (n j : Nat) : Nat :=
  if 8 * (j + 1) ≤ n then 255
  else if n ≤ 8 * j then 0
  else 256 - 2 ^ (8 * (j + 1) - n)

/-- Go `IP.Mask`: byte-wise AND of the address with the CIDR mask. -/
def maskIPv4 (ip : IPv4) (n : Nat) : IPv4 :=
  ⟨Nat.land ip.o0 (maskOctet n 0), Nat.land ip.o1 (maskOctet n 1),
   Nat.land ip.o2 (maskOctet n 2), Nat.land ip.o3 (maskOctet n 3)⟩

/-- Dotted-decimal rendering of Go `IP.String` for a 4-byte address. -/
def formatIPv4 (ip : IPv4) : String :=
  toString ip.o0 ++ "." ++ toString ip.o1 ++ "." ++
  toString ip.o2 ++ "." ++ toString ip.o3

/-- Go `(*net.IPNet).String()` for the net produced by `ParseCIDR`:
the masked address in dotted decimal, a slash, and the mask length.
This is the canonical (masked) form the specification refers to. -/
def ipNetString (ip : IPv4) (n : Nat) : String :=
  formatIPv4 (maskIPv4 ip n) ++ "/" ++ toString n

/-- Go `utils.ValidateCIDR`: parse, then return the canonical form. -/
def validateCIDR (cidr : String) : Except String String :=
  match parseCIDR cidr with
  | none => .error "invalid CIDR format"
  | some (ip, n) => .ok (ipNetString ip n)

/-! ### Data model (`internal/models`)

Timestamp and certificate fields of the Go structs are omitted: no
function modelled here reads them, they are opaque payload. -/

/-- Go `models.RoleType` is a string type; these are its constants. -/
def roleAdmin : String := "admin"

def roleUser : String := "user"

def roleVassal : String := "vassal"

/-- Go `models.RouteType` constants. -/
def routeTypeDefault : String := "default"

def routeTypeCustom : String := "custom"

def routeTypeASN : String := "asn"

def routeTypeBlock : String := "blocked"

/-- Go `models.User` (ID, Username, Role, TrafficLimit; the fields the
modelled functions read). -/
structure User where
  id : Int
  username : String
  role : String
  trafficLimit : Int
deriving DecidableEq, Repr

/-- Go `models.Route` (ID, Network, Description, Type, CreatedBy). -/
structure Route where
  id : Int
  network : String
  description : String
  rtype : String
  createdBy : Int
deriving DecidableEq, Repr

/-- Go `models.RouteGroup` (ID, Name). -/
structure RouteGroup where
  id : Int
  name : String
deriving DecidableEq, Repr

/-- Go `models.RoleLimits`, field for field. -/
structure RoleLimits where
  maxInvites : Int
  maxVPNConnections : Int
  canAddRoutes : Bool
  canViewLogs : Bool
  canManageUsers : Bool
  canManageInvites : Bool
  canViewInviteTree : Bool
  canOverrideAdminRoutes : Bool
deriving DecidableEq, Repr

/-- Go `User.GetRoleLimits` (`internal/models`): a switch on the role
string; the default branch returns the zero value of `RoleLimits`.
`-1` encodes unlimited, following the Go source comments. -/
def getRoleLimits (role : String) : RoleLimits :=
  if role = roleAdmin then
    { maxInvites := -1, maxVPNConnections := -1,
      canAddRoutes := true, canViewLogs := true, canManageUsers := true,
      canManageInvites := true, canViewInviteTree := true,
      canOverrideAdminRoutes := true }
  else if role = roleUser then
    { maxInvites := 4, maxVPNConnections := 1,
      canAddRoutes := true, canViewLogs := false, canManageUsers := false,
      canManageInvites := true, canViewInviteTree := true,
      canOverrideAdminRoutes := false }
  else if role = roleVassal then
    { maxInvites := 0, maxVPNConnections := 1,
      canAddRoutes := false, canViewLogs := false, canManageUsers := false,
      canManageInvites := false, canViewInviteTree := false,
      canOverrideAdminRoutes := false }
  else
    { maxInvites := 0, maxVPNConnections := 0,
      canAddRoutes := false, canViewLogs := false, canManageUsers := false,
      canManageInvites := false, canViewInviteTree := false,
      canOverrideAdminRoutes := false }

/-! ### Daemon control interface (`internal/vpn`, OpenConnectServer)

The mutable allow/block lists are passed and returned explicitly; the
process handle `cmd` becomes an `Option Nat` (`none` models the Go
`cmd == nil || cmd.Process == nil` not-running state). -/

/-- Go `OpenConnectServer.AddRoute`: reject a CIDR that does not parse;
re-adding an entry already present is a no-op; otherwise append.  The
CIDR is stored exactly as given (no canonicalisation). -/
def addRoute (routes : List String) (cidr : String) : Except String (List String) :=
  match parseCIDR cidr with
  | none => .error "invalid CIDR format"
  | some _ =>
    if cidr ∈ routes then .ok routes
    else .ok (routes ++ [cidr])

/-- Go `OpenConnectServer.RemoveRoute`: remove the first entry equal to
`cidr`, preserving order; the method returns nothing, so an absent
entry is silently a no-op. -/
def removeRoute : List String → String → List String
  | [], _ => []
  | r :: rs, cidr => if r = cidr then rs else r :: removeRoute rs cidr

/-- Go `OpenConnectServer.BlockRoute`: the same pattern as `addRoute`,
on the block list. -/
def blockRoute (blockRoutes : List String) (cidr : String) : Except String (List String) :=
  match parseCIDR cidr with
  | none => .error "invalid CIDR format"
  | some _ =>
    if cidr ∈ blockRoutes then .ok blockRoutes
    else .ok (blockRoutes ++ [cidr])

/-- Outcomes of the environment interactions inside
`OpenConnectServer.Stop`: whether sending SIGTERM succeeds, whether the
process exits within the 5-second grace period, and whether the
force-kill succeeds. -/
structure StopEnv where
  signalOk : Bool
  exitsWithinGrace : Bool
  killOk : Bool
deriving DecidableEq, Repr

/-- Go `OpenConnectServer.Stop`: no-op returning nil when no process is
running; otherwise send SIGTERM (returning the error, with the handle
still set, when the signal fails), wait up to the grace period, on
timeout force-kill (returning the error, with the handle still set,
when the kill fails); the handle is cleared only on the success
paths. -/
def ocStop (cmd : Option Nat) (env : StopEnv) : Except String Unit × Option Nat :=
  match cmd with
  | none => (.ok (), none)
  | some p =>
    if env.signalOk = false then (.error "failed to send SIGTERM", some p)
    else if env.exitsWithinGrace then (.ok (), none)
    else if env.killOk = false then (.error "failed to kill process", some p)
    else (.ok (), none)

/-! ### Session introspection adapter (`parseOcctlOutput`, `parseOcctlTraffic`) -/

/-- Loop body of Go `parseOcctlOutput`: trim the line, skip it when
blank, otherwise append the first whitespace-delimited field. -/
def sessionLineStep (acc : List String) (line : List Char) : List String :=
  if trimChars line = [] then acc
  else
    match fieldsOf (trimChars line) with
    | f :: _ => acc ++ [String.mk f]
    | [] => acc

/-- Go `parseOcctlOutput`: split on newlines, skip the header line
(the loop starts at index 1), process each remaining line. -/
def parseOcctlOutput (output : String) : List String :=
  ((splitOnChar '\n' output.toList).drop 1).foldl sessionLineStep []

/-- Per-line contract of `parseOcctlOutput` written from the
specification words: the first whitespace-delimited token of a
non-blank line, nothing for a blank line. -/
def sessionLineSpec (line : List Char) : Option String :=
  if trimChars line = [] then none
  else ((fieldsOf (trimChars line)).head?).map String.mk

/-- Specification-side session-list parser (`parseSessionList` in the
specification): split on newlines, skip the header line, take the
first token of each remaining non-blank line. -/
def parseSessionListSpec (output : String) : List String :=
  ((splitOnChar '\n' output.toList).drop 1).filterMap sessionLineSpec

/-- Loop body of Go `parseOcctlTraffic`: trim the line; on an `RX:`
line with at least two fields, strip commas from the second field,
parse it with `strconv.ParseInt` (error discarded) and overwrite the
incoming-bytes accumulator; symmetrically for `TX:`. -/
def trafficLineStep (acc : Int × Int) (line : List Char) : Int × Int :=
  if ("RX:".toList).isPrefixOf (trimChars line) then
    match fieldsOf (trimChars line) with
    | _ :: byteField :: _ =>
      ((goParseInt64 (String.mk (removeAll ',' byteField))).1, acc.2)
    | _ => acc
  else if ("TX:".toList).isPrefixOf (trimChars line) then
    match fieldsOf (trimChars line) with
    | _ :: byteField :: _ =>
      (acc.1, (goParseInt64 (String.mk (removeAll ',' byteField))).1)
    | _ => acc
  else acc

/-- Go `parseOcctlTraffic`: fold the line rule over all lines starting
from `(0, 0)`; total by construction, the function has no error
result. -/
def parseOcctlTraffic (output : String) : Int × Int :=
  (splitOnChar '\n' output.toList).foldl trafficLineStep (0, 0)

/-! ### VPN service (`internal/service`, VPNService)

Each store call made by a service method is modelled by one field of a
repository view: the `Except` value that call returns for the fixed
user the method was invoked on.  The methods never write through these
views, so a snapshot is a faithful model of one execution. -/

/-- Results of the store calls `VPNService.GetUserRoutes` makes for one
user: `User().GetByID`, `Route().GetUserRoutes`, `Route().GetUserGroups`,
`Route().GetRoutesInGroup` (per group id) and
`Route().List(RouteTypeDefault)`. -/
structure RepoView where
  user : Except String User
  userRoutes : Except String (List Route)
  userGroups : Except String (List RouteGroup)
  routesInGroup : Int → Except String (List Route)
  defaultRoutes : Except String (List Route)

/-- Group-merge loop of `VPNService.GetUserRoutes`: for each group
fetch its member routes; a fetch error is logged and the group is
skipped; a successful fetch is appended to the accumulator. -/
def appendGroupRoutes (v : RepoView) (acc : List Route) (gs : List RouteGroup) : List Route :=
  gs.foldl
    (fun acc g =>
      match v.routesInGroup g.id with
      | .error _ => acc
      | .ok rs => acc ++ rs)
    acc

/-- Go `VPNService.GetUserRoutes`: fetch the user, the individual
routes and the groups (each error propagating with no list); merge the
group routes; then, when the user is a vassal and the merged list is
empty, fetch the default-typed routes (error propagating) and append
them.  Note the fallback tests the merged list, after the group
append. -/
def getUserRoutes (v : RepoView) : Except String (List Route) :=
  match v.user with
  | .error e => .error ("failed to get user: " ++ e)
  | .ok user =>
    match v.userRoutes with
    | .error e => .error ("failed to get user routes: " ++ e)
    | .ok routes =>
      match v.userGroups with
      | .error e => .error ("failed to get user route groups: " ++ e)
      | .ok groups =>
        let merged := appendGroupRoutes v routes groups
        if user.role = roleVassal ∧ merged.length = 0 then
          match v.defaultRoutes with
          | .error e => .error ("failed to get default routes: " ++ e)
          | .ok ds => .ok (merged ++ ds)
        else .ok merged

/-- Results of the calls `VPNService.updateTrafficStats` makes while
processing one active connection: `User().GetByUsername`,
`vpnServer.GetUserTraffic`, `Traffic().LogTraffic` and
`Traffic().GetTotalUserTraffic`. -/
structure ConnEnv where
  lookupUser : Except String User
  userTraffic : Except String (Int × Int)
  logTrafficOk : Except String Unit
  totalTraffic : Except String Int

/-- Observable effects of processing one connection inside a tick of
`VPNService.updateTrafficStats`: the active-connections map entry
written, the byte values passed to `Traffic().LogTraffic`, and the
usernames passed to `vpnServer.DisconnectUser`. -/
structure ConnEffects where
  mapEntry : Option (Int × String)
  samples : List Int
  disconnects : List String
deriving DecidableEq, Repr

/-- Per-connection body of Go `VPNService.updateTrafficStats`: resolve
the username to a user (failure skips the connection); record the map
entry; fetch the live traffic (failure skips the rest); log one sample
of `bytesIn + bytesOut` (a logging failure is only warned about); when
`TrafficLimit > 0` fetch the cumulative total (failure skips the
check) and disconnect the user when the total strictly exceeds the
limit. -/
def processConnection (username : String) (env : ConnEnv) : ConnEffects :=
  match env.lookupUser with
  | .error _ => ⟨none, [], []⟩
  | .ok user =>
    match env.userTraffic with
    | .error _ => ⟨some (user.id, username), [], []⟩
    | .ok traffic =>
      let samples := [traffic.1 + traffic.2]
      if 0 < user.trafficLimit then
        match env.totalTraffic with
        | .error _ => ⟨some (user.id, username), samples, []⟩
        | .ok total =>
          if user.trafficLimit < total then
            ⟨some (user.id, username), samples, [username]⟩
          else ⟨some (user.id, username), samples, []⟩
      else ⟨some (user.id, username), samples, []⟩

/-- Association-list model of the in-memory `activeConnections` map
(`userID -> username`). -/
def lookupConn : List (Int × String) → Int → Option String
  | [], _ => none
  | (k, v) :: rest, userID => if k = userID then some v else lookupConn rest userID

/-- Go `VPNService.DisconnectUser`: look the user up in the in-memory
active-connections map; when absent, return an error and issue no
daemon command; when present, issue `occtl disconnect user` for the
mapped username and return its result.  The second component lists the
usernames passed to the daemon. -/
def serviceDisconnectUser (active : List (Int × String))
    (daemonDisconnect : String → Except String Unit) (userID : Int) :
    Except String Unit × List String :=
  match lookupConn active userID with
  | none => (.error "user is not connected", [])
  | some username => (daemonDisconnect username, [username])

/-- Success test on an `Except` result. -/
def exceptIsOk : Except String Unit → Bool
  | .ok _ => true
  | .error _ => false

/-- In-memory daemon route lists touched by `VPNService.CreateRoute`. -/
structure VPNLists where
  routes : List String
  blockRoutes : List String
deriving DecidableEq, Repr

/-- Go `VPNService.CreateRoute` (the implementation wired to both the
HTTP handler and the bot): insert the route into the store first
(`createOk` models the outcome of `Route().Create`; on failure the
wrapped error is returned and nothing else happens); then, for a
default or custom route, call the daemon `AddRoute` — whose validation
error is only logged — and for a blocked route call `BlockRoute`
likewise.  No CIDR validation or canonicalisation happens before the
store insert. -/
def vpnServiceCreateRoute (createOk : Bool) (store : List Route)
    (lists : VPNLists) (r : Route) :
    Except String Unit × List Route × VPNLists :=
  if createOk = false then
    (.error "failed to create route in database", store, lists)
  else
    let store := store ++ [r]
    if r.rtype = routeTypeDefault ∨ r.rtype = routeTypeCustom then
      match addRoute lists.routes r.network with
      | .ok rs => (.ok (), store, { lists with routes := rs })
      | .error _ => (.ok (), store, lists)
    else if r.rtype = routeTypeBlock then
      match blockRoute lists.blockRoutes r.network with
      | .ok bs => (.ok (), store, { lists with blockRoutes := bs })
      | .error _ => (.ok (), store, lists)
    else (.ok (), store, lists)

/-- Go `RouteService.CreateRoute` (`internal/service`): validates the
network with `net.ParseCIDR` before any store call, rejecting a
malformed CIDR, stores the canonical `ipNet.String()` form, and
defaults an empty type to custom.  This implementation matches the
specification invariant, but `NewRouteService` is never called
anywhere in the repository, so no request reaches it. -/
def routeServiceCreateRoute (createOk : Bool) (store : List Route) (r : Route) :
    Except String Unit × List Route :=
  match parseCIDR r.network with
  | none => (.error "invalid CIDR format for Network", store)
  | some (ip, n) =>
    let r2 := { r with network := ipNetString ip n,
                       rtype := if r.rtype = "" then routeTypeCustom else r.rtype }
    if createOk then (.ok (), store ++ [r2])
    else (.error "failed to create route in database", store)

/-! ### Concrete store snapshots used by counterexamples and witnesses -/

/-- Route reached through a group assignment in the scenarios below. -/
def routeHome : Route := ⟨1, "10.1.0.0/16", "group route", "custom", 1⟩

/-- Default-typed route returned by `Route().List(RouteTypeDefault)`. -/
def routeDefault0 : Route := ⟨2, "192.168.0.0/16", "baseline", "default", 1⟩

/-- Individually assigned route in the scenarios below. -/
def routeSolo : Route := ⟨3, "10.2.0.0/16", "individual", "custom", 6⟩

/-- Vassal user of the fallback scenarios. -/
def vassalUser : User := ⟨5, "vas", "vassal", 0⟩

/-- Ordinary user of the error-propagation scenario. -/
def plainUser : User := ⟨6, "bob", "user", 0⟩

/-- Route group assigned to the users in the scenarios below. -/
def groupA : RouteGroup := ⟨1, "ga"⟩

/-- Snapshot for the fallback scenario of the specification: a vassal
with zero individual routes and exactly one group-assigned route,
while one default-typed route exists. -/
def viewVassalGroup : RepoView :=
  { user := .ok vassalUser,
    userRoutes := .ok [],
    userGroups := .ok [groupA],
    routesInGroup := fun gid => if gid = 1 then .ok [routeHome] else .ok [],
    defaultRoutes := .ok [routeDefault0] }

/-- Snapshot where the fetch of the member routes of the one assigned
group fails while every other store call succeeds. -/
def viewGroupFetchFails : RepoView :=
  { user := .ok plainUser,
    userRoutes := .ok [routeSolo],
    userGroups := .ok [groupA],
    routesInGroup := fun _ => .error "db down",
    defaultRoutes := .ok [routeDefault0] }

/-- Snapshot where the initial user fetch fails. -/
def viewUserFetchFails : RepoView :=
  { user := .error "boom",
    userRoutes := .ok [],
    userGroups := .ok [],
    routesInGroup := fun _ => .ok [],
    defaultRoutes := .ok [] }

/-- Connection environment of the quota scenario of the specification:
limit 5000, stored cumulative total 6000 after the new sample. -/
def quotaEnv : ConnEnv :=
  { lookupUser := .ok ⟨7, "alice", "user", 5000⟩,
    userTraffic := .ok (1000, 1000),
    logTrafficOk := .ok (),
    totalTraffic := .ok 6000 }

/-- Connection environment for a user with `trafficLimit = 0` and a
huge stored total. -/
def noLimitEnv : ConnEnv :=
  { lookupUser := .ok ⟨8, "carol", "user", 0⟩,
    userTraffic := .ok (10, 10),
    logTrafficOk := .ok (),
    totalTraffic := .ok 999999 }

/-- Route with a malformed network string, as a request body may carry. -/
def badRoute : Route := ⟨0, "not-a-cidr", "via api", "custom", 1⟩

/-- Route with a valid but non-canonical (unmasked) network string. -/
def sloppyRoute : Route := ⟨0, "10.0.0.5/24", "via api", "custom", 1⟩

/-! ### Helper lemmas -/

/-- One step of the session-list loop appends exactly the token the
specification rule extracts. -/
theorem sessionLineStep_eq (acc : List String) (l : List Char) :
    sessionLineStep acc l = acc ++ (sessionLineSpec l).toList := by
  by_cases h : trimChars l = []
  · simp [sessionLineStep, sessionLineSpec, h]
  · cases hf : fieldsOf (trimChars l) with
    | nil => simp [sessionLineStep, sessionLineSpec, h, hf]
    | cons f fs => simp [sessionLineStep, sessionLineSpec, h, hf]

/-- Folding the session-list loop collects the per-line tokens. -/
theorem foldl_sessionLineStep (ls : List (List Char)) :
    ∀ acc : List String, ls.foldl sessionLineStep acc = acc ++ ls.filterMap sessionLineSpec := by
  induction ls with
  | nil => intro acc; simp
  | cons l ls ih =>
    intro acc
    rw [List.foldl_cons, sessionLineStep_eq, ih, List.filterMap_cons]
    cases sessionLineSpec l <;> simp

/-- Lines carrying neither an `RX:` nor a `TX:` marker leave the
traffic accumulator unchanged. -/
theorem foldl_trafficLineStep_const (ls : List (List Char))
    (h : ∀ l ∈ ls, ("RX:".toList).isPrefixOf (trimChars l) = false ∧
                   ("TX:".toList).isPrefixOf (trimChars l) = false) :
    ∀ acc : Int × Int, ls.foldl trafficLineStep acc = acc := by
  induction ls with
  | nil => intro acc; rfl
  | cons l ls ih =>
    intro acc
    obtain ⟨h1, h2⟩ := h l (List.mem_cons_self l ls)
    rw [List.foldl_cons]
    have hstep : trafficLineStep acc l = acc := by
      simp only [trafficLineStep, h1, h2]
      simp
    rw [hstep]
    exact ih (fun x hx => h x (List.mem_cons_of_mem _ hx)) acc

/-- Removing an absent entry does not change the allow-list. -/
theorem removeRoute_not_mem (l : List String) (c : String) (h : c ∉ l) :
    removeRoute l c = l := by
  induction l with
  | nil => rfl
  | cons x xs ih =>
    have hx : x ≠ c := fun he => h (by simp [he])
    have h2 : c ∉ xs := fun hm => h (List.mem_cons_of_mem _ hm)
    simp [removeRoute, hx, ih h2]

/-! ### C1 — vassal fallback and group routes -/

/-- C1, counterexample: in the snapshot `viewVassalGroup` (a vassal
with zero individual routes and one group-assigned route, with a
default route available) `GetUserRoutes` returns only the group route;
the default route is not appended, because the code tests the merged
list, not the individual list, for emptiness.  The claim predicts both
the group route and the defaults. -/
theorem getUserRoutes_group_route_blocks_defaults :
    getUserRoutes viewVassalGroup = .ok [routeHome] ∧ routeDefault0 ∉ [routeHome] := by
  exact ⟨rfl, by decide⟩

/-- C1, amended: the vassal fallback triggers on emptiness of the
merged list (individual routes plus group routes).  When the merged
list is nonempty the function returns it unchanged, with no defaults;
when it is empty the default-typed routes are returned. -/
theorem getUserRoutes_fallback_on_merged_empty (v : RepoView) (u : User)
    (rs : List Route) (gs : List RouteGroup)
    (hu : v.user = .ok u) (hrole : u.role = roleVassal)
    (hr : v.userRoutes = .ok rs) (hg : v.userGroups = .ok gs) :
    (appendGroupRoutes v rs gs ≠ [] →
       getUserRoutes v = .ok (appendGroupRoutes v rs gs)) ∧
    (∀ ds, appendGroupRoutes v rs gs = [] → v.defaultRoutes = .ok ds →
       getUserRoutes v = .ok ds) := by
  constructor
  · intro hne
    simp only [getUserRoutes, hu, hr, hg]
    rw [if_neg]
    intro hc
    exact hne (List.length_eq_zero.mp hc.2)
  · intro ds hempty hds
    simp only [getUserRoutes, hu, hr, hg]
    rw [if_pos ⟨hrole, by rw [hempty]; rfl⟩, hds, hempty]
    rfl

/-- C1, witness: the amended theorem applied to `viewVassalGroup`. -/
theorem getUserRoutes_fallback_witness :
    getUserRoutes viewVassalGroup = .ok [routeHome] :=
  (getUserRoutes_fallback_on_merged_empty viewVassalGroup vassalUser [] [groupA]
    rfl rfl rfl rfl).1 (by decide)

/-! ### C2 — quota enforcement on a tick -/

/-- C2: in the per-connection body of `updateTrafficStats`, a resolved
user with a positive traffic limit whose stored cumulative total
strictly exceeds the limit triggers exactly one `DisconnectUser` call
for that connection; a resolved user with `trafficLimit = 0` never
triggers a disconnect, whatever the other results are. -/
theorem updateTrafficStats_quota (username : String) (env : ConnEnv) (u : User)
    (hu : env.lookupUser = .ok u) :
    (∀ bIn bOut total, env.userTraffic = .ok (bIn, bOut) →
       env.totalTraffic = .ok total →
       0 < u.trafficLimit → u.trafficLimit < total →
       (processConnection username env).disconnects = [username]) ∧
    (u.trafficLimit = 0 → (processConnection username env).disconnects = []) := by
  constructor
  · intro bIn bOut total ht htot hlim hover
    simp [processConnection, hu, ht, htot, hlim, hover]
  · intro hzero
    cases ht : env.userTraffic with
    | error e => simp [processConnection, hu, ht]
    | ok tr => simp [processConnection, hu, ht, hzero]

/-- C2, witness: limit 5000 with total 6000 disconnects exactly once;
limit 0 with total 999999 never disconnects. -/
theorem updateTrafficStats_quota_witness :
    (processConnection "alice" quotaEnv).disconnects = ["alice"] ∧
    (processConnection "carol" noLimitEnv).disconnects = [] :=
  ⟨(updateTrafficStats_quota "alice" quotaEnv ⟨7, "alice", "user", 5000⟩ rfl).1
      1000 1000 6000 rfl rfl (by decide) (by decide),
   (updateTrafficStats_quota "carol" noLimitEnv ⟨8, "carol", "user", 0⟩ rfl).2 rfl⟩

/-! ### C3 — error propagation in GetUserRoutes -/

/-- C3, counterexample: in `viewGroupFetchFails` the fetch of the one
assigned group member-route fetch fails, yet `GetUserRoutes` returns the
partially populated list of individual routes with no error — the
failure is logged and the group skipped, not propagated. -/
theorem getUserRoutes_partial_on_group_failure :
    getUserRoutes viewGroupFetchFails = .ok [routeSolo] ∧
    viewGroupFetchFails.routesInGroup 1 = .error "db down" := by
  exact ⟨rfl, rfl⟩

/-- C3, amended: store errors from the user fetch, the individual
route fetch, the group-list fetch and the default-route fetch each
propagate, returning an error and no list; a failure fetching one
group member-route fetch is the exception — it is skipped. -/
theorem getUserRoutes_error_propagation (v : RepoView) :
    (∀ e, v.user = .error e →
       getUserRoutes v = .error ("failed to get user: " ++ e)) ∧
    (∀ u e, v.user = .ok u → v.userRoutes = .error e →
       getUserRoutes v = .error ("failed to get user routes: " ++ e)) ∧
    (∀ u rs e, v.user = .ok u → v.userRoutes = .ok rs → v.userGroups = .error e →
       getUserRoutes v = .error ("failed to get user route groups: " ++ e)) ∧
    (∀ u rs gs e, v.user = .ok u → v.userRoutes = .ok rs → v.userGroups = .ok gs →
       u.role = roleVassal → appendGroupRoutes v rs gs = [] →
       v.defaultRoutes = .error e →
       getUserRoutes v = .error ("failed to get default routes: " ++ e)) := by
  refine ⟨?_, ?_, ?_, ?_⟩
  · intro e he
    simp [getUserRoutes, he]
  · intro u e hu he
    simp [getUserRoutes, hu, he]
  · intro u rs e hu hr he
    simp [getUserRoutes, hu, hr, he]
  · intro u rs gs e hu hr hg hrole hempty he
    simp only [getUserRoutes, hu, hr, hg]
    rw [if_pos ⟨hrole, by rw [hempty]; rfl⟩, he]

/-- C3, witness: a failing user fetch propagates with the wrapping
message of the Go source. -/
theorem getUserRoutes_error_propagation_witness :
    getUserRoutes viewUserFetchFails = .error "failed to get user: boom" :=
  (getUserRoutes_error_propagation viewUserFetchFails).1 "boom" rfl

/-! ### C4 — role policy -/

/-- C4: the role policy is a pure function of the role string with the
exact tables of `User.GetRoleLimits`: admin gets unlimited (`-1`)
invites and connections and every capability; user gets 4 invites, one
connection, can add routes, manage invites and view the invite tree
but cannot view logs, manage users or override admin routes; vassal
gets zero invites, one connection, and no capability; every other
string gets the all-zero, all-false limits. -/
theorem getRoleLimits_policy :
    getRoleLimits roleAdmin = ⟨-1, -1, true, true, true, true, true, true⟩ ∧
    getRoleLimits roleUser = ⟨4, 1, true, false, false, true, true, false⟩ ∧
    getRoleLimits roleVassal = ⟨0, 1, false, false, false, false, false, false⟩ ∧
    ∀ role : String, role ≠ roleAdmin → role ≠ roleUser → role ≠ roleVassal →
      getRoleLimits role = ⟨0, 0, false, false, false, false, false, false⟩ := by
  refine ⟨rfl, rfl, rfl, ?_⟩
  intro role h1 h2 h3
  simp [getRoleLimits, h1, h2, h3]

/-- C4, witness: an unknown role string fails closed. -/
theorem getRoleLimits_unknown_witness :
    getRoleLimits "guest" = ⟨0, 0, false, false, false, false, false, false⟩ :=
  getRoleLimits_policy.2.2.2 "guest" (by decide) (by decide) (by decide)

/-! ### C5 — createRoute accepts malformed and non-canonical CIDRs -/

/-- C5: the wired createRoute path (`VPNService.CreateRoute`, reached
from both the HTTP handler and the bot) performs no CIDR validation
before the store insert: a route whose network does not parse as a
CIDR is inserted and reported created (the daemon-side `AddRoute`
validation error is only logged), and a valid but unmasked network is
stored as given, not in the canonical form `ValidateCIDR` would
produce.  The spec-conforming `RouteService.CreateRoute` exists in the
repository but is never constructed. -/
theorem createRoute_accepts_malformed_cidr :
    parseCIDR "not-a-cidr" = none ∧
    vpnServiceCreateRoute true [] ⟨[], []⟩ badRoute = (.ok (), [badRoute], ⟨[], []⟩) ∧
    vpnServiceCreateRoute true [] ⟨[], []⟩ sloppyRoute
      = (.ok (), [sloppyRoute], ⟨["10.0.0.5/24"], []⟩) ∧
    validateCIDR "10.0.0.5/24" = .ok "10.0.0.0/24" ∧
    sloppyRoute.network ≠ "10.0.0.0/24" := by
  exact ⟨rfl, rfl, rfl, rfl, by decide⟩

/-- Supporting fact: the never-instantiated `RouteService.CreateRoute`
does satisfy the invariant of the specification — a malformed network
is rejected with the store untouched, and an accepted route is stored
in the canonical masked form. -/
theorem routeServiceCreateRoute_canonical (store : List Route) (r : Route) :
    (parseCIDR r.network = none →
       routeServiceCreateRoute true store r
         = (.error "invalid CIDR format for Network", store)) ∧
    (∀ ip n, parseCIDR r.network = some (ip, n) →
       routeServiceCreateRoute true store r
         = (.ok (), store ++ [{ r with network := ipNetString ip n, rtype := if r.rtype = "" then routeTypeCustom else r.rtype }])) := by
  constructor
  · intro h
    simp [routeServiceCreateRoute, h]
  · intro ip n h
    simp [routeServiceCreateRoute, h]

/-! ### C6 — allow-list mutation algebra -/

/-- C6: adding a valid CIDR twice to the daemon allow-list succeeds
both times and leaves exactly one entry equal to it (given the list,
as maintained by `AddRoute` itself, holds it at most once), and
removing an absent CIDR is a no-op. -/
theorem addRoute_twice_removeRoute_absent (routes : List String) (c : String)
    (hvalid : (parseCIDR c).isSome = true) (hcount : routes.count c ≤ 1)
    (routes2 : List String) (c2 : String) (habs : c2 ∉ routes2) :
    (∃ rs, addRoute routes c = .ok rs ∧ addRoute rs c = .ok rs ∧ rs.count c = 1) ∧
    removeRoute routes2 c2 = routes2 := by
  refine ⟨?_, removeRoute_not_mem routes2 c2 habs⟩
  obtain ⟨pr, hp⟩ := Option.isSome_iff_exists.mp hvalid
  by_cases hm : c ∈ routes
  · refine ⟨routes, ?_, ?_, ?_⟩
    · simp [addRoute, hp, hm]
    · simp [addRoute, hp, hm]
    · have h1 : routes.count c ≠ 0 := by
        rw [Ne, List.count_eq_zero]
        intro hcon
        exact hcon hm
      omega
  · refine ⟨routes ++ [c], ?_, ?_, ?_⟩
    · simp [addRoute, hp, hm]
    · have hmem : c ∈ routes ++ [c] := by simp
      simp [addRoute, hp, hmem]
    · have h0 : routes.count c = 0 := List.count_eq_zero.mpr hm
      simp [List.count_append, h0]

/-- C6, witness: adding `10.0.0.0/24` twice to an empty allow-list and
removing an absent CIDR from a one-entry list. -/
theorem addRoute_twice_witness :
    (∃ rs, addRoute [] "10.0.0.0/24" = .ok rs ∧ addRoute rs "10.0.0.0/24" = .ok rs ∧
       rs.count "10.0.0.0/24" = 1) ∧
    removeRoute ["10.1.0.0/16"] "10.9.9.9/32" = ["10.1.0.0/16"] :=
  addRoute_twice_removeRoute_absent [] "10.0.0.0/24" (by decide) (by decide)
    ["10.1.0.0/16"] "10.9.9.9/32" (by decide)

/-! ### C7 — stop() and the process handle -/

/-- C7, counterexample: when the graceful-termination signal fails,
`Stop` returns the error with the process handle still set; the claim
that the handle is cleared in every case with a running process is
false on this input. -/
theorem ocStop_signal_failure_keeps_handle :
    ocStop (some 7) ⟨false, false, false⟩ = (.error "failed to send SIGTERM", some 7) ∧
    some 7 ≠ (none : Option Nat) := by
  exact ⟨rfl, by decide⟩

/-- C7, amended: `Stop` is a no-op returning success with no process;
with a running process the handle is cleared exactly on the success
paths — graceful exit within the grace period, or force-kill
succeeding after the timeout; when sending the termination signal
fails, or the force-kill fails, the error is returned and the handle
is left set. -/
theorem ocStop_cases (env : StopEnv) (p : Nat) :
    ocStop none env = (.ok (), none) ∧
    (env.signalOk = true → env.exitsWithinGrace = true →
       ocStop (some p) env = (.ok (), none)) ∧
    (env.signalOk = true → env.exitsWithinGrace = false → env.killOk = true →
       ocStop (some p) env = (.ok (), none)) ∧
    (env.signalOk = false →
       ocStop (some p) env = (.error "failed to send SIGTERM", some p)) ∧
    (env.signalOk = true → env.exitsWithinGrace = false → env.killOk = false →
       ocStop (some p) env = (.error "failed to kill process", some p)) := by
  refine ⟨rfl, ?_, ?_, ?_, ?_⟩
  · intro h1 h2
    simp [ocStop, h1, h2]
  · intro h1 h2 h3
    simp [ocStop, h1, h2, h3]
  · intro h1
    simp [ocStop, h1]
  · intro h1 h2 h3
    simp [ocStop, h1, h2, h3]

/-- C7, witness: timeout followed by a successful force-kill clears
the handle and returns success. -/
theorem ocStop_cases_witness :
    ocStop (some 3) ⟨true, false, true⟩ = (.ok (), none) :=
  (ocStop_cases ⟨true, false, true⟩ 3).2.2.1 rfl rfl rfl

/-! ### C8 — traffic parsing -/

/-- C8, counterexample: a byte field that `strconv.ParseInt` cannot
represent (here `2^63`, written with Go comma grouping) is rejected by
the parser with an error, yet the stored result is the saturated value
`2^63 - 1`, not the zero the claim promises for unparsable fields. -/
theorem parseOcctlTraffic_range_overflow :
    (goParseInt64 "9223372036854775808").2 = false ∧
    parseOcctlTraffic "RX: 9,223,372,036,854,775,808" = ((2 : Int) ^ 63 - 1, 0) ∧
    ¬((2 : Int) ^ 63 - 1 = 0) := by
  exact ⟨rfl, rfl, by decide⟩

/-- C8, amended: `parseOcctlTraffic` is total with no error result (by
type); on `RX: 1,234` and `TX: 5,678` it returns `(1234, 5678)` with
commas stripped; when no line carries an `RX:` or `TX:` marker it
returns `(0, 0)`; a syntactically malformed byte field yields zero and
a missing field leaves zero — while an out-of-range numeric field
saturates to `2^63 - 1` per Go `strconv.ParseInt`. -/
theorem parseOcctlTraffic_behavior :
    parseOcctlTraffic "RX: 1,234\nTX: 5,678" = (1234, 5678) ∧
    (∀ output : String,
      (∀ l ∈ splitOnChar '\n' output.toList,
        ("RX:".toList).isPrefixOf (trimChars l) = false ∧
        ("TX:".toList).isPrefixOf (trimChars l) = false) →
      parseOcctlTraffic output = (0, 0)) ∧
    parseOcctlTraffic "RX: abc\nTX:" = (0, 0) := by
  refine ⟨rfl, ?_, rfl⟩
  intro output h
  exact foldl_trafficLineStep_const (splitOnChar '\n' output.toList) h (0, 0)

/-- C8, witness: an input with no traffic markers parses to zeros. -/
theorem parseOcctlTraffic_no_fields_witness :
    parseOcctlTraffic "header only" = (0, 0) :=
  parseOcctlTraffic_behavior.2.1 "header only" (by decide)

/-! ### C9 — session-list parsing -/

/-- C9: the code parser `parseOcctlOutput` coincides with the
specification rule — split on newlines, skip the header line, take the
first whitespace-delimited token of each remaining non-blank line, in
order — and on the two reference inputs returns `["alice"]` and `[]`
respectively. -/
theorem parseOcctlOutput_spec_and_examples :
    (∀ output : String, parseOcctlOutput output = parseSessionListSpec output) ∧
    parseOcctlOutput "header\nalice 10.0.0.5 10.1.1.1 rx" = ["alice"] ∧
    parseOcctlOutput "header" = [] := by
  refine ⟨fun output => ?_, rfl, rfl⟩
  unfold parseOcctlOutput parseSessionListSpec
  rw [foldl_sessionLineStep]
  simp

/-! ### C10 — service-level disconnect gated by the tick-built map -/

/-- C10: `VPNService.DisconnectUser` returns an error while issuing no
daemon disconnect command exactly when the user id is absent from the
in-memory active-connections map; since that map is rebuilt only by
the enforcement-loop tick, a session the daemon opened after the last
tick cannot be disconnected through this operation. -/
theorem disconnectUser_map_gate (active : List (Int × String))
    (daemonDisconnect : String → Except String Unit) (userID : Int) :
    ((exceptIsOk (serviceDisconnectUser active daemonDisconnect userID).1 = false ∧
      (serviceDisconnectUser active daemonDisconnect userID).2 = [])
      ↔ lookupConn active userID = none) ∧
    (lookupConn active userID = none →
      serviceDisconnectUser active daemonDisconnect userID
        = (.error "user is not connected", [])) := by
  cases h : lookupConn active userID with
  | none => simp [serviceDisconnectUser, h, exceptIsOk]
  | some username => simp [serviceDisconnectUser, h]

/-- C10, witness: a user id missing from the map yields the
not-connected error and no daemon command. -/
theorem disconnectUser_map_gate_witness :
    serviceDisconnectUser [(1, "alice")] (fun _ => Except.ok ()) 2
      = (.error "user is not connected", []) :=
  (disconnectUser_map_gate [(1, "alice")] (fun _ => Except.ok ()) 2).2 rfl

end Eidolon
